import Mathlib

/-!
Shallow embedding of the arithmetic-evaluation core of `src/sql/item_func.cc`
(scalar expression type resolution and evaluation of a SQL executor).

Machine 64-bit quantities are modelled as their bit pattern, a `Nat` below
`2^64`; a C `longlong` reads that word through two's complement
(`toSigned`), a C `ulonglong` reads it directly.  Evaluation results are a
tagged outcome (`Res`): SQL NULL, NULL from a division by zero (recording
whether the strict-mode warning was pushed), the integer-overflow outcome
(NULL plus out-of-range warning), or a value.  Doubles and decimals are
modelled as exact rationals where a claim needs them.
-/

namespace ItemFunc

/-- Size of the 64-bit word domain, `2^64`. -/
def U64 : Nat := 18446744073709551616

/-- Bit pattern reading of `(ulonglong) LONGLONG_MAX`, `2^63 - 1`. -/
def LONGLONG_MAX_ull : Nat := 9223372036854775807

/-- Bit pattern of `LONGLONG_MIN` read as `ulonglong`, `2^63`. -/
def LONGLONG_MIN_ull : Nat := 9223372036854775808

/-- Largest `ulonglong`, `2^64 - 1`. -/
def ULONGLONG_MAX : Nat := 18446744073709551615

/-- Two's-complement (signed `longlong`) reading of a 64-bit word. -/
def toSigned (w : Nat) : Int :=
  if w < LONGLONG_MIN_ull then (w : Int) else (w : Int) - (U64 : Int)

/-- Value carried by a word under a signedness flag: the `ulonglong`
reading when `u` is set, the `longlong` reading otherwise. -/
def interp (u : Bool) (w : Nat) : Int :=
  if u then (w : Int) else toSigned w

/-- C unary negation of a 64-bit word (two's complement wraparound). -/
def cneg (w : Nat) : Nat := (U64 - w) % U64

/-- C addition of two 64-bit words (wraparound). -/
def cadd (a b : Nat) : Nat := (a + b) % U64

/-- Bit pattern of a mathematical integer reduced into the 64-bit word domain. -/
def intToWord (v : Int) : Nat := (v % (U64 : Int)).toNat

/-- A mathematical integer is representable under a signedness flag:
`[0, 2^64)` when unsigned, `[-2^63, 2^63)` when signed. -/
def representable (u : Bool) (v : Int) : Prop :=
  if u then 0 ≤ v ∧ v ≤ (ULONGLONG_MAX : Int)
  else -(LONGLONG_MIN_ull : Int) ≤ v ∧ v ≤ (LONGLONG_MAX_ull : Int)

instance (u : Bool) (v : Int) : Decidable (representable u v) := by
  unfold representable; infer_instance

/-- Outcome of evaluating an arithmetic node. `null` is plain SQL NULL from a
NULL operand; `divByZeroNull warned` is the NULL produced by
`signal_divide_by_null` (with `warned` telling whether the strict-mode
warning was pushed); `overflow` is the outcome of `raise_integer_overflow`
(NULL plus an out-of-range warning); `ok` carries the produced value. -/
inductive Res (α : Type) where
  | null : Res α
  | divByZeroNull : Bool → Res α
  | overflow : Res α
  | ok : α → Res α
deriving DecidableEq

/-- Value delivered by an integer outcome, read under the node's
signedness flag; `none` when the outcome is not a value. -/
def resValue (uf : Bool) : Res Nat → Option Int
  | .ok w => some (interp uf w)
  | _ => none

/-- Embedding of `Item_func::signal_divide_by_null` (item_func.cc:697):
pushes the `ER_DIVISION_BY_ZERO` warning exactly when
`MODE_ERROR_FOR_DIVISION_BY_ZERO` is in the session `sql_mode`, and sets
`null_value`.  Returns whether the warning was pushed. -/
def signal_divide_by_null (strict : Bool) : Bool := strict

/-- Embedding of `test_if_sum_overflows_ull` (item_func.cc:75):
`ULONGLONG_MAX - arg1 < arg2`. -/
def test_if_sum_overflows_ull (arg1 arg2 : Nat) : Prop :=
  ULONGLONG_MAX - arg1 < arg2

instance (a b : Nat) : Decidable (test_if_sum_overflows_ull a b) := by
  unfold test_if_sum_overflows_ull; infer_instance

/-- Modelled from the spec: `Item_func::check_integer_overflow` lives in the
repository's `item_func.h` header, which is not among the provided sources
(only its callers in item_func.cc are).  Per the spec (section 4.2), after the
arithmetic is performed in the unsigned 64-bit domain and the mathematically
correct sign of the result is derived, the code checks "whether the unsigned
magnitude exceeds the representable range implied by the final signedness":
a value carried as signed-negative is an overflow for an unsigned node, and a
value carried as unsigned above `LONGLONG_MAX` is an overflow for a signed
node; on overflow the NULL-plus-warning overflow outcome is produced. -/
def check_integer_overflow (unsigned_flag : Bool) (value : Nat)
    (val_unsigned : Bool) : Res Nat :=
  if (unsigned_flag ∧ ¬ val_unsigned ∧ toSigned value < 0)
      ∨ (¬ unsigned_flag ∧ val_unsigned ∧ value > LONGLONG_MAX_ull) then
    .overflow
  else .ok value

/-- Embedding of `Item_func_plus::int_op` (item_func.cc:1305-1363).
`u0`, `u1` are the operands' `unsigned_flag`s, `uf` the node's resolved
`unsigned_flag`; operands are 64-bit words, `none` meaning SQL NULL. -/
def Item_func_plus_int_op (u0 u1 uf : Bool) (arg0 arg1 : Option Nat) :
    Res Nat :=
  match arg0, arg1 with
  | some w0, some w1 =>
    let res := cadd w0 w1
    if u0 then
      if u1 ∨ 0 ≤ toSigned w1 then
        if test_if_sum_overflows_ull w0 w1 then .overflow
        else check_integer_overflow uf res true
      else
        check_integer_overflow uf res (decide (w0 > LONGLONG_MAX_ull))
    else
      if u1 then
        if 0 ≤ toSigned w0 then
          if test_if_sum_overflows_ull w0 w1 then .overflow
          else check_integer_overflow uf res true
        else
          check_integer_overflow uf res (decide (w1 > LONGLONG_MAX_ull))
      else
        if 0 ≤ toSigned w0 ∧ 0 ≤ toSigned w1 then
          check_integer_overflow uf res true
        else if toSigned w0 < 0 ∧ toSigned w1 < 0 ∧ 0 ≤ toSigned res then
          .overflow
        else
          check_integer_overflow uf res false
  | _, _ => .null

/-- Embedding of `Item_func_mul::int_op` (item_func.cc:1548-1624): operands
are reduced to absolute values, the full product is rebuilt from the 32-bit
half-word decomposition with overflow checks, and the sign is restored at
the end.  The mixed-sign magnitude check is transcribed exactly as written
in the source: `(ulonglong) res > (ulonglong) LONGLONG_MIN + 1`. -/
def Item_func_mul_int_op (u0 u1 uf : Bool) (arg0 arg1 : Option Nat) :
    Res Nat :=
  match arg0, arg1 with
  | some w0, some w1 =>
    let a_negative : Bool := !u0 && decide (toSigned w0 < 0)
    let b_negative : Bool := !u1 && decide (toSigned w1 < 0)
    let a := if a_negative then cneg w0 else w0
    let b := if b_negative then cneg w1 else w1
    let a0 := a % 4294967296
    let a1 := a / 4294967296
    let b0 := b % 4294967296
    let b1 := b / 4294967296
    if a1 ≠ 0 ∧ b1 ≠ 0 then .overflow
    else
      let res1 := (a1 * b0 + a0 * b1) % U64
      if res1 > 4294967295 then .overflow
      else
        let res1s := (res1 * 4294967296) % U64
        let res0 := (a0 * b0) % U64
        if test_if_sum_overflows_ull res1s res0 then .overflow
        else
          let res := res1s + res0
          if a_negative ≠ b_negative then
            if res > LONGLONG_MIN_ull + 1 then .overflow
            else check_integer_overflow uf (cneg res) false
          else check_integer_overflow uf res true
  | _, _ => .null

/-- Embedding of the integer (`INT_RESULT` operands) path of
`Item_func_int_div::val_int` (item_func.cc:1820-1845): division by zero goes
through `signal_divide_by_null`, otherwise the quotient is computed on
unsigned absolute magnitudes and the sign restored afterwards. -/
def Item_func_int_div_val_int (strict u0 u1 uf : Bool)
    (arg0 arg1 : Option Nat) : Res Nat :=
  match arg0, arg1 with
  | some w0, some w1 =>
    if w1 = 0 then .divByZeroNull (signal_divide_by_null strict)
    else
      let res := (if ¬ u0 = true ∧ toSigned w0 < 0 then cneg w0 else w0)
        / (if ¬ u1 = true ∧ toSigned w1 < 0 then cneg w1 else w1)
      if ¬ ((¬ u0 = true ∧ toSigned w0 < 0) ↔ (¬ u1 = true ∧ toSigned w1 < 0))
      then
        if res > LONGLONG_MAX_ull then .overflow
        else check_integer_overflow uf (cneg res) false
      else check_integer_overflow uf res true
  | _, _ => .null

/-- Embedding of `Item_func_mod::int_op` (item_func.cc:1863-1892): the
remainder is computed on unsigned absolute magnitudes (because dividing
LONGLONG_MIN by -1 would trap) and the dividend's sign is restored. -/
def Item_func_mod_int_op (strict u0 u1 uf : Bool)
    (arg0 arg1 : Option Nat) : Res Nat :=
  match arg0, arg1 with
  | some w0, some w1 =>
    if w1 = 0 then .divByZeroNull (signal_divide_by_null strict)
    else
      let res := (if ¬ u0 = true ∧ toSigned w0 < 0 then cneg w0 else w0)
        % (if ¬ u1 = true ∧ toSigned w1 < 0 then cneg w1 else w1)
      if ¬ u0 = true ∧ toSigned w0 < 0 then
        check_integer_overflow uf (cneg res) false
      else check_integer_overflow uf res true
  | _, _ => .null

/-- The DIV result value exactly as the spec words it: the quotient of the
operands' unsigned absolute magnitudes (natural-number division, which
truncates toward zero), with the sign restored afterwards. -/
def div_magnitude_then_sign (a b : Int) : Int :=
  if ¬ ((a < 0) ↔ (b < 0)) then -((a.natAbs / b.natAbs : Nat) : Int)
  else ((a.natAbs / b.natAbs : Nat) : Int)

/-- Truncation of a rational toward zero, as an integer (flooring positive
values and ceiling negative ones). -/
def ratTrunc (x : ℚ) : Int := if 0 ≤ x then ⌊x⌋ else ⌈x⌉

/-- Modelled from the spec: the C library `fmod` used by
`Item_func_mod::real_op` - the remainder after dividing with the quotient
truncated toward zero - with doubles modelled as exact rationals. -/
def fmod (a b : ℚ) : ℚ := a - b * (ratTrunc (a / b) : ℚ)

/-- Modelled from the spec: `Item_func::check_float_overflow` (item_func.h,
which is not among the provided sources) turns a finite-to-infinite
transition into an error outcome; in the exact-rational model of doubles
every arithmetic result is finite, so it delivers the value unchanged. -/
def check_float_overflow (v : ℚ) : Res ℚ := .ok v

/-- Embedding of `Item_func_div::real_op` (item_func.cc:1663-1676), doubles
modelled as exact rationals: the divisor is compared against zero before any
division is performed. -/
def Item_func_div_real_op (strict : Bool) (arg0 arg1 : Option ℚ) : Res ℚ :=
  match arg0, arg1 with
  | some value, some val2 =>
    if val2 = 0 then .divByZeroNull (signal_divide_by_null strict)
    else check_float_overflow (value / val2)
  | _, _ => .null

/-- Embedding of `Item_func_mod::real_op` (item_func.cc:1894-1907). -/
def Item_func_mod_real_op (strict : Bool) (arg0 arg1 : Option ℚ) : Res ℚ :=
  match arg0, arg1 with
  | some value, some val2 =>
    if val2 = 0 then .divByZeroNull (signal_divide_by_null strict)
    else .ok (fmod value val2)
  | _, _ => .null

/-- Decimal-library status code `E_DEC_OK`. -/
def E_DEC_OK : Nat := 0

/-- Decimal-library status code `E_DEC_TRUNCATED`. -/
def E_DEC_TRUNCATED : Nat := 1

/-- Decimal-library status code `E_DEC_OVERFLOW`. -/
def E_DEC_OVERFLOW : Nat := 2

/-- Decimal-library status code `E_DEC_DIV_ZERO`. -/
def E_DEC_DIV_ZERO : Nat := 4

/-- Decimal-library status code `E_DEC_BAD_NUM`. -/
def E_DEC_BAD_NUM : Nat := 8

/-- Modelled from the spec: the external DecimalValue division primitive
(`my_decimal_div`, outside the provided sources).  Division by a decimal
zero is the distinguished `DivisionByZero` status; otherwise the exact
quotient is returned with status Ok (decimals are modelled as exact
rationals, so `Truncated` and `Overflow` do not arise). -/
def my_decimal_div_q (a b : ℚ) : Nat × ℚ :=
  if b = 0 then (E_DEC_DIV_ZERO, 0) else (E_DEC_OK, a / b)

/-- Modelled from the spec: the external DecimalValue modulo primitive
(`my_decimal_mod`), with the same status discipline as division. -/
def my_decimal_mod_q (a b : ℚ) : Nat × ℚ :=
  if b = 0 then (E_DEC_DIV_ZERO, 0) else (E_DEC_OK, fmod a b)

/-- Modelled from the spec: `Item_func::check_decimal_overflow` (item_func.h)
raises only on `E_DEC_OVERFLOW`, which the exact-rational decimal model
never produces; it hands the status through. -/
def check_decimal_overflow (err : Nat) : Nat := err

/-- Embedding of `Item_func_div::decimal_op` (item_func.cc:1679-1704): a
status above `E_DEC_TRUNCATED`-class (err > 3) is NULL, with the
division-by-zero status routed through `signal_divide_by_null`. -/
def Item_func_div_decimal_op (strict : Bool) (arg0 arg1 : Option ℚ) :
    Res ℚ :=
  match arg0, arg1 with
  | none, _ => .null
  | some _, none => .null
  | some val1, some val2 =>
    let e := my_decimal_div_q val1 val2
    if check_decimal_overflow e.1 > 3 then
      if e.1 = E_DEC_DIV_ZERO then .divByZeroNull (signal_divide_by_null strict)
      else .null
    else .ok e.2

/-- Embedding of `Item_func_mod::decimal_op` (item_func.cc:1910-1933):
`E_DEC_TRUNCATED` and `E_DEC_OK` deliver the value, `E_DEC_DIV_ZERO` goes
through `signal_divide_by_null`, anything else is NULL. -/
def Item_func_mod_decimal_op (strict : Bool) (arg0 arg1 : Option ℚ) :
    Res ℚ :=
  match arg0, arg1 with
  | none, _ => .null
  | some _, none => .null
  | some val1, some val2 =>
    let e := my_decimal_mod_q val1 val2
    if e.1 = E_DEC_TRUNCATED ∨ e.1 = E_DEC_OK then .ok e.2
    else if e.1 = E_DEC_DIV_ZERO then
      .divByZeroNull (signal_divide_by_null strict)
    else .null

/-- Embedding of `Item_func_abs::int_op` (item_func.cc:2045-2056): an
unsigned node passes the value through; a signed node rejects the
`LONGLONG_MIN` pattern as overflow and otherwise negates negative values. -/
def Item_func_abs_int_op (uf : Bool) (arg0 : Option Nat) : Res Nat :=
  match arg0 with
  | some value =>
    if uf then .ok value
    else if value = LONGLONG_MIN_ull then .overflow
    else if 0 ≤ toSigned value then .ok value else .ok (cneg value)
  | none => .null

/-- Embedding of `Item_func_abs::fix_length_and_dec` (item_func.cc:2073-2079):
the node's unsigned flag is copied from the operand. -/
def Item_func_abs_fix_unsigned (arg_unsigned : Bool) : Bool := arg_unsigned

/-- The `Item_result` enumeration of evaluation domains (`ROW_RESULT` is
never a leaf evaluation target). -/
inductive Item_result where
  | STRING_RESULT
  | REAL_RESULT
  | INT_RESULT
  | DECIMAL_RESULT
  | ROW_RESULT
  | TIME_RESULT
deriving DecidableEq

/-- The four binary arithmetic operators resolved by `Item_num_op`. -/
inductive ArithOp where
  | plus
  | minus
  | mul
  | div
deriving DecidableEq

/-- Maximum scale of a decimal value (`DECIMAL_MAX_SCALE`, spec section 3:
scale is at most 30). -/
def DECIMAL_MAX_SCALE : Nat := 30

/-- Scale (`decimals`) computed by each operator's `result_precision`:
additive operators take `max(s0, s1)` (item_func.cc:1397-1414), `*` takes
`min(s0 + s1, DECIMAL_MAX_SCALE)` (1647-1660) and `/` takes
`min(s0 + prec_increment, DECIMAL_MAX_SCALE)` (1707-1733). -/
def result_precision_decimals (op : ArithOp) (s0 s1 prec_increment : Nat) :
    Nat :=
  match op with
  | .plus | .minus => max s0 s1
  | .mul => min (s0 + s1) DECIMAL_MAX_SCALE
  | .div => min (s0 + prec_increment) DECIMAL_MAX_SCALE

/-- Embedding of `Item_num_op::fix_length_and_dec` (item_func.cc:757-794),
restricted to the resolved handler: either operand Real or String gives a
Real node; else either operand Decimal or Time gives a Decimal node whose
scale comes from the operator's `result_precision`, downgraded to Integer
when a temporal operand is present and that scale is 0; else Integer.
`s0`, `s1` are the operands' decimal scales. -/
def Item_num_op_fix_length_and_dec (op : ArithOp) (r0 r1 : Item_result)
    (s0 s1 prec_increment : Nat) : Item_result :=
  if r0 = .REAL_RESULT ∨ r1 = .REAL_RESULT
      ∨ r0 = .STRING_RESULT ∨ r1 = .STRING_RESULT then .REAL_RESULT
  else if r0 = .DECIMAL_RESULT ∨ r1 = .DECIMAL_RESULT
      ∨ r0 = .TIME_RESULT ∨ r1 = .TIME_RESULT then
    if (r0 = .TIME_RESULT ∨ r1 = .TIME_RESULT)
        ∧ result_precision_decimals op s0 s1 prec_increment = 0 then
      .INT_RESULT
    else .DECIMAL_RESULT
  else .INT_RESULT

/-- The two-operand coercion lattice exactly as the spec's combination
sentence states it, without the exception clause. -/
def coercion_domain_join (r0 r1 : Item_result) : Item_result :=
  if r0 = .REAL_RESULT ∨ r1 = .REAL_RESULT
      ∨ r0 = .STRING_RESULT ∨ r1 = .STRING_RESULT then .REAL_RESULT
  else if r0 = .DECIMAL_RESULT ∨ r1 = .DECIMAL_RESULT
      ∨ r0 = .TIME_RESULT ∨ r1 = .TIME_RESULT then .DECIMAL_RESULT
  else .INT_RESULT

/-- The combination rule exactly as the claim states it: the lattice join,
with the downgrade exception applying only to `-`, and only when the
Decimal domain arose purely from temporal operands (no Decimal operand) and
the computed scale is 0. -/
def spec_combine_domains (op : ArithOp) (r0 r1 : Item_result)
    (s0 s1 prec_increment : Nat) : Item_result :=
  if coercion_domain_join r0 r1 = .DECIMAL_RESULT
      ∧ op = .minus
      ∧ (r0 = .TIME_RESULT ∨ r1 = .TIME_RESULT)
      ∧ ¬ (r0 = .DECIMAL_RESULT ∨ r1 = .DECIMAL_RESULT)
      ∧ result_precision_decimals op s0 s1 prec_increment = 0 then
    .INT_RESULT
  else coercion_domain_join r0 r1

/-- The amended combination rule: the same lattice join, with the downgrade
exception applying to every binary arithmetic operator whenever either
operand is temporal and the operator's computed scale is 0. -/
def spec_combine_domains_amended (op : ArithOp) (r0 r1 : Item_result)
    (s0 s1 prec_increment : Nat) : Item_result :=
  if coercion_domain_join r0 r1 = .DECIMAL_RESULT
      ∧ (r0 = .TIME_RESULT ∨ r1 = .TIME_RESULT)
      ∧ result_precision_decimals op s0 s1 prec_increment = 0 then
    .INT_RESULT
  else coercion_domain_join r0 r1

/-- Embedding of `Item_func_num1::fix_length_and_dec` (item_func.cc:803-835),
restricted to the resolved handler and unsigned flag (length bookkeeping
omitted): an INT operand keeps INT and copies the operand's unsigned flag,
String/Real go Real, Time/Decimal go Decimal, Row is unreachable. -/
def Item_func_num1_fix (r0 : Item_result) (arg_unsigned node_unsigned : Bool) :
    Item_result × Bool :=
  match r0 with
  | .INT_RESULT => (.INT_RESULT, arg_unsigned)
  | .STRING_RESULT | .REAL_RESULT => (.REAL_RESULT, node_unsigned)
  | .TIME_RESULT | .DECIMAL_RESULT => (.DECIMAL_RESULT, node_unsigned)
  | .ROW_RESULT => (.ROW_RESULT, node_unsigned)

/-- Embedding of `Item_func_neg::fix_length_and_dec` (item_func.cc:2003-2034):
after the `Item_func_num1` dispatch, an INT-context constant operand whose
unsigned 64-bit reading is at least `2^63` upgrades the node to Decimal -
except when the pattern is exactly `2^63` and the operand is an `INT_ITEM`
literal (the parser's form of the most negative integer literal) - and the
node is made signed unconditionally. -/
def Item_func_neg_fix_length_and_dec (r0 : Item_result)
    (arg_unsigned arg_const arg_is_int_item : Bool) (arg_val : Nat) :
    Item_result × Bool :=
  let base := Item_func_num1_fix r0 arg_unsigned false
  let handler :=
    if base.1 = .INT_RESULT ∧ arg_const = true
        ∧ LONGLONG_MIN_ull ≤ arg_val
        ∧ (arg_val ≠ LONGLONG_MIN_ull ∨ arg_is_int_item = false) then
      Item_result.DECIMAL_RESULT
    else base.1
  (handler, false)

/-- Embedding of `Item_func_neg::int_op` (item_func.cc:1968-1987). -/
def Item_func_neg_int_op (u0 uf : Bool) (arg0 : Option Nat) : Res Nat :=
  match arg0 with
  | some value =>
    if u0 = true ∧ value > LONGLONG_MAX_ull + 1 then .overflow
    else if value = LONGLONG_MIN_ull then
      if ¬ u0 = uf then .ok LONGLONG_MIN_ull else .overflow
    else check_integer_overflow uf (cneg value)
      (decide (¬ u0 = true ∧ toSigned value < 0))
  | none => .null

/-- Evaluation loop of `Item_func_min_max::val_int` (item_func.cc:3031-3043)
and `val_real` (3002-3014) after the first operand: `value` is the running
extreme, each further operand replaces it when
`(tmp < value ? cmp_sign : -cmp_sign) > 0`, and a NULL operand stops the
loop with a NULL result. -/
def Item_func_min_max_loop {α : Type} [LinearOrder α] (cmp_sign : Int)
    (value : α) : List (Option α) → Option α
  | [] => some value
  | arg :: rest =>
    match arg with
    | none => none
    | some tmp =>
      Item_func_min_max_loop cmp_sign
        (if (if tmp < value then cmp_sign else -cmp_sign) > 0 then tmp
          else value) rest

/-- Embedding of `Item_func_min_max::val_int` / `val_real` for a numeric
comparison context: the first operand seeds the running extreme (its NULL
ends evaluation immediately), the rest are folded left-to-right.  The
operand list is never empty (LEAST/GREATEST take at least two arguments). -/
def Item_func_min_max_val {α : Type} [LinearOrder α] (cmp_sign : Int)
    (args : List (Option α)) : Option α :=
  match args with
  | [] => none
  | arg0 :: rest =>
    match arg0 with
    | none => none
    | some v0 => Item_func_min_max_loop cmp_sign v0 rest

/-- Rounding half away from zero of a rational, as an integer. -/
def roundHalfAwayFromZero (x : ℚ) : Int :=
  if 0 ≤ x then ⌊x + 1/2⌋ else ⌈x - 1/2⌉

/-- Modelled from the spec: the host nearest-integer primitive `rint` used
by `my_double_round`, at the default IEEE rounding mode round-half-to-even
(halfway values go to the even neighbour). -/
def rint (x : ℚ) : ℚ :=
  if x - ⌊x⌋ < 1/2 then ((⌊x⌋ : Int) : ℚ)
  else if 1/2 < x - ⌊x⌋ then ((⌊x⌋ + 1 : Int) : ℚ)
  else if 2 ∣ ⌊x⌋ then ((⌊x⌋ : Int) : ℚ) else ((⌊x⌋ + 1 : Int) : ℚ)

/-- Modelled from the spec: the external DecimalValue rounding primitive
(`my_decimal_round`, outside the provided sources): rounds to `dec`
fractional digits (a negative `dec` rounds above the decimal point),
truncating toward zero when `truncate` is set and rounding half away from
zero otherwise; decimals are modelled as exact rationals, so the status is
always Ok. -/
def my_decimal_round_q (x : ℚ) (dec : Int) (truncate : Bool) : Nat × ℚ :=
  let p : ℚ := 10 ^ dec
  if truncate = true then (E_DEC_OK, ((ratTrunc (x * p) : Int) : ℚ) / p)
  else (E_DEC_OK, ((roundHalfAwayFromZero (x * p) : Int) : ℚ) / p)

/-- Double-overflow threshold of the rational model of doubles: IEEE-754
binary64 overflows to infinity just above `2^1024`. -/
def DBL_OVERFLOW_BOUND : ℚ := 2 ^ 1024

/-- Embedding of `my_double_round` (item_func.cc:2536-2574), with doubles
modelled as exact rationals: the scale `tmp` is a power of ten, from the
309-entry `log_10` table or `pow`, which is infinite above `10^308`
(`tmp_isinf`); a product beyond the double range stands in for
`isinf(value_mul_tmp)`; truncation uses floor for non-negative values and
ceiling for negative ones, rounding uses `rint`. -/
def my_double_round (value : ℚ) (dec_w : Nat) (dec_unsigned truncate : Bool) :
    ℚ :=
  let dec := toSigned dec_w
  let abs_dec : Nat :=
    if dec < 0 ∧ ¬ dec_unsigned = true then cneg dec_w else dec_w
  let tmp_isinf : Prop := 308 < abs_dec
  if ¬ (dec < 0 ∧ ¬ dec_unsigned = true) ∧ tmp_isinf then value
  else if (dec < 0 ∧ ¬ dec_unsigned = true) ∧ tmp_isinf then 0
  else
    let tmp : ℚ := 10 ^ abs_dec
    let value_div_tmp : ℚ := value / tmp
    let value_mul_tmp : ℚ := value * tmp
    if ¬ (dec < 0 ∧ ¬ dec_unsigned = true)
        ∧ DBL_OVERFLOW_BOUND ≤ |value_mul_tmp| then value
    else if truncate = true then
      if 0 ≤ value then
        (if dec < 0 then ((⌊value_div_tmp⌋ : Int) : ℚ) * tmp
          else ((⌊value_mul_tmp⌋ : Int) : ℚ) / tmp)
      else
        (if dec < 0 then ((⌈value_div_tmp⌉ : Int) : ℚ) * tmp
          else ((⌈value_mul_tmp⌉ : Int) : ℚ) / tmp)
    else
      if dec < 0 then rint value_div_tmp * tmp else rint value_mul_tmp / tmp

/-- Embedding of `Item_func_round::real_op` (item_func.cc:2577-2588). -/
def Item_func_round_real_op (truncate u1 : Bool) (arg0 : Option ℚ)
    (arg1 : Option Nat) : Res ℚ :=
  match arg0, arg1 with
  | some value, some dec_w => .ok (my_double_round value dec_w u1 truncate)
  | _, _ => .null

/-- Embedding of `Item_func_round::decimal_op` (item_func.cc:2632-2646):
the digit count is clamped below the node's resolved scale
(`node_decimals`) for non-negative counts, and at INT_MIN for very negative
ones; a rounding status above `E_DEC_TRUNCATED` is NULL. -/
def Item_func_round_decimal_op (truncate u1 : Bool) (node_decimals : Nat)
    (arg0 : Option ℚ) (arg1 : Option Nat) : Res ℚ :=
  match arg0, arg1 with
  | some value, some w1 =>
    let dec : Int :=
      if 0 ≤ toSigned w1 ∨ u1 = true then ((min w1 node_decimals : Nat) : Int)
      else if toSigned w1 < -2147483648 then -2147483648
      else toSigned w1
    let e := my_decimal_round_q value dec truncate
    if e.1 > 1 then .null else .ok e.2
  | _, _ => .null

/-- Number of entries of the `log_10_int` power-of-ten table (spec: 64-bit
integers span up to 20 decimal digits, `10^0` through `10^19`). -/
def log_10_int_entries : Nat := 20

/-- Embedding of `my_unsigned_round` (item_func.cc:2595-2599).  The final
`tmp + to` is `ulonglong` arithmetic and wraps modulo `2^64` when `value`
rounds up past the top of the range - although the function's own comment
promises that overflows near the `ulonglong` boundary are avoided. -/
def my_unsigned_round (value toArg : Nat) : Nat :=
  let tmp := value / toArg * toArg
  if value - tmp < toArg / 2 then tmp else (tmp + toArg) % U64

/-- Embedding of `Item_func_round::int_op` (item_func.cc:2602-2629): a
non-negative or unsigned digit count returns the value unchanged; a
magnitude of ten beyond the `log_10_int` table yields 0; otherwise the
value is truncated or rounded to the power of ten, on unsigned words when
the node is unsigned and through sign-split `my_unsigned_round` calls when
signed. -/
def Item_func_round_int_op (u1 uf truncate : Bool) (arg0 arg1 : Option Nat) :
    Res Nat :=
  match arg0, arg1 with
  | some value, some dec_w =>
    if 0 ≤ toSigned dec_w ∨ u1 = true then .ok value
    else
      let abs_dec := cneg dec_w
      if abs_dec ≥ log_10_int_entries then .ok 0
      else
        let tmp := 10 ^ abs_dec
        if truncate = true then
          .ok (if uf = true then value / tmp * tmp
            else intToWord (Int.tdiv (toSigned value) (tmp : Int) * tmp))
        else
          .ok (if uf = true ∨ 0 ≤ toSigned value then
              my_unsigned_round value tmp
            else cneg (my_unsigned_round (cneg value) tmp))
  | _, _ => .null

/-- The two's-complement reading of a word, split into its two regimes with
the defining equation exposed as pure integer arithmetic. -/
theorem toSigned_cases (w : Nat) :
    (w < 9223372036854775808 ∧ toSigned w = (w : Int)) ∨
    (9223372036854775808 ≤ w ∧
      toSigned w = (w : Int) - 18446744073709551616) := by
  by_cases h : w < 9223372036854775808
  · exact Or.inl ⟨h, by simp [toSigned, LONGLONG_MIN_ull, U64, h]⟩
  · refine Or.inr ⟨by omega, ?_⟩
    simp [toSigned, LONGLONG_MIN_ull, U64, h]

/-- Helper for the addition claim: whenever the mathematical sum of the two
operand values is representable under the node's resolved signedness, the
plus evaluator delivers exactly that sum, for every signedness combination. -/
theorem plus_int_op_exact (u0 u1 uf : Bool) (w0 w1 : Nat)
    (h0 : w0 < U64) (h1 : w1 < U64)
    (hrep : representable uf (interp u0 w0 + interp u1 w1)) :
    resValue uf (Item_func_plus_int_op u0 u1 uf (some w0) (some w1))
      = some (interp u0 w0 + interp u1 w1) := by
  simp only [U64] at h0 h1
  have hs0 := toSigned_cases w0
  have hs1 := toSigned_cases w1
  have hsr := toSigned_cases ((w0 + w1) % 18446744073709551616)
  cases u0 <;> cases u1 <;> cases uf <;>
    simp [Item_func_plus_int_op, check_integer_overflow, resValue, interp,
      cadd, test_if_sum_overflows_ull, representable, U64,
      ULONGLONG_MAX, LONGLONG_MAX_ull, LONGLONG_MIN_ull] at hrep ⊢ <;>
    rcases hs0 with ⟨ha, ea⟩ | ⟨ha, ea⟩ <;>
    rcases hs1 with ⟨hb, eb⟩ | ⟨hb, eb⟩ <;>
    rcases hsr with ⟨hc, ec⟩ | ⟨hc, ec⟩ <;>
    (try simp only [ea, eb, ec] at hrep ⊢) <;>
    (try split_ifs at hrep ⊢) <;>
    (try simp_all only [resValue, Option.some.injEq, reduceCtorEq]) <;>
    omega

/-- C2: for all 64-bit integer operands whose sum is representable in the
node's resolved signedness, integer addition returns exactly that sum; and
in particular for INT64_MAX + 1 in the signed domain the result is the
overflow outcome, not a value wrapped around to INT64_MIN. -/
theorem C2_plus_int_op_exact_sum (u0 u1 uf : Bool) (w0 w1 : Nat)
    (h0 : w0 < U64) (h1 : w1 < U64)
    (hrep : representable uf (interp u0 w0 + interp u1 w1)) :
    resValue uf (Item_func_plus_int_op u0 u1 uf (some w0) (some w1))
      = some (interp u0 w0 + interp u1 w1)
    ∧ Item_func_plus_int_op false false false (some LONGLONG_MAX_ull) (some 1)
      = .overflow :=
  ⟨plus_int_op_exact u0 u1 uf w0 w1 h0 h1 hrep, by decide⟩

/-- Witness for the addition claim at the concrete signed input 2 + 3. -/
theorem C2_plus_int_op_exact_sum_witness :
    resValue false (Item_func_plus_int_op false false false (some 2) (some 3))
      = some (interp false 2 + interp false 3)
    ∧ Item_func_plus_int_op false false false (some LONGLONG_MAX_ull) (some 1)
      = .overflow :=
  C2_plus_int_op_exact_sum false false false 2 3 (by decide) (by decide)
    (by decide)

/-- C1 (code bug): the multiplication overflow detection is off by one in
the mixed-sign case.  The source line 1613 compares the unsigned magnitude
of the product against `(ulonglong) LONGLONG_MIN + 1 = 2^63 + 1` instead of
`2^63`, so the product (-3) * 3074457345618258603, whose mathematical value
is -(2^63 + 1) and is representable in no 64-bit signedness, slips through
the check, is negated modulo 2^64, and is returned as the incorrect value
INT64_MAX = 2^63 - 1 instead of the overflow outcome. -/
theorem C1_mul_int_op_wraps_on_min_minus_one :
    Item_func_mul_int_op false false false
      (some (intToWord (-3))) (some 3074457345618258603)
      = .ok LONGLONG_MAX_ull
    ∧ interp false (intToWord (-3)) * interp false 3074457345618258603
      = -(9223372036854775809 : Int)
    ∧ ¬ representable false (-(9223372036854775809 : Int))
    ∧ resValue false (Item_func_mul_int_op false false false
        (some (intToWord (-3))) (some 3074457345618258603))
      = some (9223372036854775807 : Int) := by
  refine ⟨by decide, by decide, by decide, by decide⟩

/-- The unsigned absolute magnitude taken inside the DIV/MOD evaluators
agrees with the absolute value of the operand's mathematical reading. -/
theorem magnitude_eq (u : Bool) (w : Nat) (h : w < U64) :
    (interp u w).natAbs
      = if ¬ u = true ∧ toSigned w < 0 then cneg w else w := by
  simp only [U64] at h
  have hs := toSigned_cases w
  cases u <;>
    simp only [interp, cneg, U64, if_true, if_false, Bool.false_eq_true,
      not_false_eq_true, not_true_eq_false, eq_self_iff_true, true_and,
      false_and] <;>
    rcases hs with ⟨ha, ea⟩ | ⟨ha, ea⟩ <;>
    (try simp only [ea]) <;>
    (try split_ifs) <;>
    omega

set_option maxHeartbeats 3200000 in
/-- Technical core of the DIV claim: the evaluator returns the sign-restored
magnitude quotient whenever that value is representable in the node's
signedness and its magnitude also fits in `LONGLONG_MAX` (the algorithm
checks the magnitude against `LONGLONG_MAX` before restoring a negative
sign), and the overflow outcome otherwise. -/
theorem int_div_val_int_exact (strict u0 u1 uf : Bool) (w0 w1 : Nat)
    (h0 : w0 < U64) (h1 : w1 < U64) (hnz : w1 ≠ 0) :
    ((representable uf (div_magnitude_then_sign (interp u0 w0) (interp u1 w1))
        ∧ -(LONGLONG_MAX_ull : Int)
          ≤ div_magnitude_then_sign (interp u0 w0) (interp u1 w1)) →
      resValue uf
        (Item_func_int_div_val_int strict u0 u1 uf (some w0) (some w1))
        = some (div_magnitude_then_sign (interp u0 w0) (interp u1 w1)))
    ∧ (¬ (representable uf
            (div_magnitude_then_sign (interp u0 w0) (interp u1 w1))
          ∧ -(LONGLONG_MAX_ull : Int)
            ≤ div_magnitude_then_sign (interp u0 w0) (interp u1 w1)) →
        Item_func_int_div_val_int strict u0 u1 uf (some w0) (some w1)
          = .overflow) := by
  constructor <;>
  · intro hrep
    simp only [div_magnitude_then_sign, magnitude_eq u0 w0 h0,
      magnitude_eq u1 w1 h1] at hrep ⊢
    simp only [U64] at h0 h1
    have hs0 := toSigned_cases w0
    have hs1 := toSigned_cases w1
    cases u0 <;> cases u1 <;> cases uf <;>
      simp only [Item_func_int_div_val_int, check_integer_overflow, resValue,
        interp, representable, U64, ULONGLONG_MAX, LONGLONG_MAX_ull,
        LONGLONG_MIN_ull, signal_divide_by_null, if_true, if_false,
        Bool.false_eq_true, not_false_eq_true, not_true_eq_false,
        eq_self_iff_true, true_and, false_and, and_true, and_false,
        iff_true, iff_false, true_iff, false_iff, not_not, not_false_iff,
        false_or, or_false, true_or, or_true,
        Option.some.injEq, reduceCtorEq] at hrep ⊢ <;>
      rcases hs0 with ⟨ha, ea⟩ | ⟨ha, ea⟩ <;>
      rcases hs1 with ⟨hb, eb⟩ | ⟨hb, eb⟩ <;>
      (try simp only [ea, eb] at *) <;>
      (try split_ifs at *) <;>
      (try simp only [resValue, interp, toSigned, cneg, U64,
        LONGLONG_MIN_ull, if_true, if_false, Bool.false_eq_true,
        not_false_eq_true, false_or, or_false, true_or, or_true,
        Option.some.injEq, reduceCtorEq] at *) <;>
      (try simp only [ea, eb] at *) <;>
      (try split_ifs at *) <;>
      have hd1 : w0 / w1 ≤ w0 := Nat.div_le_self w0 w1 <;>
      have hd2 : w0 / ((18446744073709551616 - w1) % 18446744073709551616)
          ≤ w0 := Nat.div_le_self w0 _ <;>
      have hd3 : ((18446744073709551616 - w0) % 18446744073709551616) / w1
          ≤ (18446744073709551616 - w0) % 18446744073709551616 :=
        Nat.div_le_self _ w1 <;>
      have hd4 : ((18446744073709551616 - w0) % 18446744073709551616)
            / ((18446744073709551616 - w1) % 18446744073709551616)
          ≤ (18446744073709551616 - w0) % 18446744073709551616 :=
        Nat.div_le_self _ _ <;>
      (try generalize hq1 : w0 / w1 = q1 at *) <;>
      (try generalize hq2 :
        w0 / ((18446744073709551616 - w1) % 18446744073709551616) = q2
        at *) <;>
      (try generalize hq3 :
        ((18446744073709551616 - w0) % 18446744073709551616) / w1 = q3
        at *) <;>
      (try generalize hq4 :
        ((18446744073709551616 - w0) % 18446744073709551616)
          / ((18446744073709551616 - w1) % 18446744073709551616) = q4
        at *) <;>
      omega

/-- C4: for non-NULL integer operands with a non-zero divisor, integer DIV
computes the quotient on unsigned absolute magnitudes truncated toward zero
and restores the sign (delivering exactly that value whenever the algorithm
can represent it, and the overflow outcome otherwise); in particular
(-7) DIV 2 = -3 and INT64_MIN DIV -1 is the overflow outcome rather than a
native signed division. -/
theorem C4_int_div_magnitude_sign (strict u0 u1 uf : Bool) (w0 w1 : Nat)
    (h0 : w0 < U64) (h1 : w1 < U64) (hnz : w1 ≠ 0) :
    ((representable uf (div_magnitude_then_sign (interp u0 w0) (interp u1 w1))
        ∧ -(LONGLONG_MAX_ull : Int)
          ≤ div_magnitude_then_sign (interp u0 w0) (interp u1 w1)) →
      resValue uf
        (Item_func_int_div_val_int strict u0 u1 uf (some w0) (some w1))
        = some (div_magnitude_then_sign (interp u0 w0) (interp u1 w1)))
    ∧ (¬ (representable uf
            (div_magnitude_then_sign (interp u0 w0) (interp u1 w1))
          ∧ -(LONGLONG_MAX_ull : Int)
            ≤ div_magnitude_then_sign (interp u0 w0) (interp u1 w1)) →
        Item_func_int_div_val_int strict u0 u1 uf (some w0) (some w1)
          = .overflow)
    ∧ resValue false (Item_func_int_div_val_int false false false false
        (some (intToWord (-7))) (some 2)) = some (-3)
    ∧ Item_func_int_div_val_int false false false false
        (some LONGLONG_MIN_ull) (some (intToWord (-1))) = .overflow := by
  obtain ⟨h1', h2'⟩ := int_div_val_int_exact strict u0 u1 uf w0 w1 h0 h1 hnz
  exact ⟨h1', h2', by decide, by decide⟩

/-- C3: a division or modulo by zero, in every numeric domain (integer `%`
and DIV, real `/` and `%`, decimal `/` and `%`), never aborts evaluation:
the result is the NULL produced by `signal_divide_by_null`, and the
non-fatal division-by-zero warning is pushed exactly when the session
strict-division flag (`MODE_ERROR_FOR_DIVISION_BY_ZERO`) is set; in
particular 5 DIV 0, 5 % 0, decimal 5 / 0 and real 5.0 / 0.0 all give that
NULL outcome (never Infinity). -/
theorem C3_division_by_zero_null_and_warning (strict u0 u1 uf : Bool)
    (w : Nat) (x : ℚ) :
    Item_func_mod_int_op strict u0 u1 uf (some w) (some 0)
      = .divByZeroNull strict
    ∧ Item_func_int_div_val_int strict u0 u1 uf (some w) (some 0)
      = .divByZeroNull strict
    ∧ Item_func_div_real_op strict (some x) (some 0) = .divByZeroNull strict
    ∧ Item_func_mod_real_op strict (some x) (some 0) = .divByZeroNull strict
    ∧ Item_func_div_decimal_op strict (some x) (some 0)
      = .divByZeroNull strict
    ∧ Item_func_mod_decimal_op strict (some x) (some 0)
      = .divByZeroNull strict
    ∧ Item_func_int_div_val_int strict false false false (some 5) (some 0)
      = .divByZeroNull strict
    ∧ Item_func_mod_int_op strict false false false (some 5) (some 0)
      = .divByZeroNull strict
    ∧ Item_func_div_decimal_op strict (some 5) (some 0)
      = .divByZeroNull strict
    ∧ Item_func_div_real_op strict (some 5) (some 0)
      = .divByZeroNull strict
    ∧ signal_divide_by_null strict = strict := by
  refine ⟨?_, ?_, ?_, ?_, ?_, ?_, ?_, ?_, ?_, ?_, rfl⟩ <;>
    simp [Item_func_mod_int_op, Item_func_int_div_val_int,
      Item_func_div_real_op, Item_func_mod_real_op,
      Item_func_div_decimal_op, Item_func_mod_decimal_op,
      my_decimal_div_q, my_decimal_mod_q, check_decimal_overflow,
      E_DEC_DIV_ZERO, E_DEC_TRUNCATED, E_DEC_OK, signal_divide_by_null]

/-- C10: integer ABS never executes an unrepresentable negation.  With the
node's unsigned flag resolved from the operand as
`Item_func_abs_fix_length_and_dec` does, an unsigned node returns its
operand unchanged for every input; a signed node produces the overflow
outcome exactly when the operand value is INT64_MIN, and the exact absolute
value for every other operand. -/
theorem C10_abs_int_op_exact (u0 uf : Bool) (w : Nat) (h : w < U64)
    (hf : uf = Item_func_abs_fix_unsigned u0) :
    (uf = true → Item_func_abs_int_op uf (some w) = .ok w)
    ∧ (uf = false →
        ((Item_func_abs_int_op uf (some w) = .overflow
            ↔ interp u0 w = -(LONGLONG_MIN_ull : Int))
          ∧ (interp u0 w ≠ -(LONGLONG_MIN_ull : Int) →
              resValue uf (Item_func_abs_int_op uf (some w))
                = some (((interp u0 w).natAbs : Nat) : Int)))) := by
  simp only [Item_func_abs_fix_unsigned] at hf
  subst hf
  simp only [U64] at h
  have hs := toSigned_cases w
  constructor
  · intro hu; subst hu
    simp [Item_func_abs_int_op]
  · intro hu; subst hu
    rcases hs with ⟨ha, ea⟩ | ⟨ha, ea⟩ <;>
      simp only [Item_func_abs_int_op, resValue, interp, cneg,
        U64, LONGLONG_MIN_ull, if_true, if_false, Bool.false_eq_true,
        not_false_eq_true, Option.some.injEq, reduceCtorEq, ea] <;>
      (try split_ifs) <;>
      (try simp only [Option.some.injEq, reduceCtorEq, resValue, interp,
        toSigned, cneg, U64, LONGLONG_MIN_ull, if_true, if_false,
        Bool.false_eq_true, not_false_eq_true, ea, false_iff, iff_false,
        true_iff, iff_true]) <;>
      omega

/-- Witness for the ABS claim at the signed operand -5. -/
theorem C10_abs_int_op_exact_witness :
    resValue false (Item_func_abs_int_op false (some (intToWord (-5))))
      = some (((interp false (intToWord (-5))).natAbs : Nat) : Int) :=
  ((C10_abs_int_op_exact false false (intToWord (-5)) (by decide)
    (by decide)).2 (by decide)).2 (by decide)

/-- Witness for the DIV claim at (-7) DIV 2 in the signed domain. -/
theorem C4_int_div_magnitude_sign_witness :
    resValue false (Item_func_int_div_val_int false false false false
      (some (intToWord (-7))) (some 2))
      = some (div_magnitude_then_sign (interp false (intToWord (-7)))
          (interp false 2)) :=
  (C4_int_div_magnitude_sign false false false false (intToWord (-7)) 2
    (by decide) (by decide) (by decide)).1 (by decide)

/-- C5 counterexample: for `+` (not `-`) with a temporal first operand of
scale 0 and an integer second operand, the resolver downgrades to Integer,
while the claim's rule (exception only for `-`) predicts Decimal. -/
theorem C5_lattice_counterexample :
    Item_num_op_fix_length_and_dec .plus .TIME_RESULT .INT_RESULT 0 0 0
      = .INT_RESULT
    ∧ spec_combine_domains .plus .TIME_RESULT .INT_RESULT 0 0 0
      = .DECIMAL_RESULT
    ∧ Item_num_op_fix_length_and_dec .plus .TIME_RESULT .INT_RESULT 0 0 0
      ≠ spec_combine_domains .plus .TIME_RESULT .INT_RESULT 0 0 0 := by
  refine ⟨by decide, by decide, by decide⟩

/-- C5 (amended): binary arithmetic type resolution is the stated lattice
(Real if either operand is Real or StringLike; else Decimal if either is
Decimal or Temporal; else Integer), with the scale-0 temporal downgrade to
Integer applying to every operator resolved by `Item_num_op`, not only to
`-`, and requiring only that some operand be temporal. -/
theorem C5_num_op_lattice_amended (op : ArithOp) (r0 r1 : Item_result)
    (s0 s1 prec_increment : Nat) :
    Item_num_op_fix_length_and_dec op r0 r1 s0 s1 prec_increment
      = spec_combine_domains_amended op r0 r1 s0 s1 prec_increment := by
  cases op <;> cases r0 <;> cases r1 <;>
    simp [Item_num_op_fix_length_and_dec, spec_combine_domains_amended,
      coercion_domain_join, result_precision_decimals]

/-- C6 counterexample: a constant signed integer operand whose value is
INT64_MIN (pattern `2^63`) that is an `INT_ITEM` is not upgraded to
Decimal, contradicting the claim's "for every constant integer operand
equal to the most negative representable value". -/
theorem C6_neg_counterexample :
    interp false LONGLONG_MIN_ull = -(LONGLONG_MIN_ull : Int)
    ∧ (Item_func_neg_fix_length_and_dec .INT_RESULT false true true
        LONGLONG_MIN_ull).1 = .INT_RESULT
    ∧ (Item_func_neg_fix_length_and_dec .INT_RESULT false true true
        LONGLONG_MIN_ull).1 ≠ .DECIMAL_RESULT := by
  refine ⟨by decide, by decide, by decide⟩

/-- C6 (amended): unary negation always resolves to a signed node; the
Decimal upgrade happens exactly for an INT-context constant whose unsigned
64-bit pattern is at least `2^63`, except the pattern `2^63` on an
`INT_ITEM` literal; and the non-upgraded most-negative cases still never
silently wrap at evaluation: negating the unsigned constant `2^63` yields
exactly INT64_MIN, negating the signed value INT64_MIN on a signed node is
the overflow outcome, and in general the evaluator returns either the exact
negation or the overflow outcome. -/
theorem C6_neg_resolution_amended (r0 : Item_result)
    (u0 uf arg_const arg_is_int_item : Bool) (w : Nat) (h : w < U64) :
    (Item_func_neg_fix_length_and_dec r0 u0 arg_const arg_is_int_item w).2
      = false
    ∧ ((Item_func_neg_fix_length_and_dec r0 u0 arg_const arg_is_int_item
          w).1 = .DECIMAL_RESULT
        ↔ (r0 = .DECIMAL_RESULT ∨ r0 = .TIME_RESULT
          ∨ (r0 = .INT_RESULT ∧ arg_const = true ∧ LONGLONG_MIN_ull ≤ w
              ∧ ¬ (w = LONGLONG_MIN_ull ∧ arg_is_int_item = true))))
    ∧ (resValue uf (Item_func_neg_int_op u0 uf (some w))
        = some (-(interp u0 w))
      ∨ Item_func_neg_int_op u0 uf (some w) = .overflow)
    ∧ resValue false (Item_func_neg_int_op true false (some LONGLONG_MIN_ull))
        = some (-(LONGLONG_MIN_ull : Int))
    ∧ Item_func_neg_int_op false false (some LONGLONG_MIN_ull)
        = .overflow := by
  refine ⟨?_, ?_, ?_, by decide, by decide⟩
  · cases r0 <;>
      simp [Item_func_neg_fix_length_and_dec, Item_func_num1_fix]
  · cases r0 <;>
      simp [Item_func_neg_fix_length_and_dec, Item_func_num1_fix] <;>
      (try split_ifs) <;>
      simp_all <;>
      omega
  · simp only [U64] at h
    have hs := toSigned_cases w
    cases u0 <;> cases uf <;>
      simp only [Item_func_neg_int_op, check_integer_overflow, resValue,
        interp, cneg, U64, ULONGLONG_MAX, LONGLONG_MAX_ull,
        LONGLONG_MIN_ull, if_true, if_false, Bool.false_eq_true,
        Bool.true_eq_false, not_false_eq_true, not_true_eq_false,
        eq_self_iff_true, true_and, false_and, and_true, and_false,
        true_or, or_true, false_or, or_false, decide_eq_true_eq,
        Option.some.injEq, reduceCtorEq] <;>
      rcases hs with ⟨ha, ea⟩ | ⟨ha, ea⟩ <;>
      (try simp only [ea] at *) <;>
      (try split_ifs at *) <;>
      (try simp only [resValue, interp, toSigned, cneg, U64,
        LONGLONG_MIN_ull, if_true, if_false, Bool.false_eq_true,
        not_false_eq_true, Option.some.injEq, reduceCtorEq, false_or,
        or_false] at *) <;>
      (try split_ifs at *) <;>
      (try simp only [Option.some.injEq, reduceCtorEq] at *) <;>
      omega

/-- Witness for the amended NEG claim at the signed operand 5. -/
theorem C6_neg_resolution_amended_witness :
    ((Item_func_neg_fix_length_and_dec Item_result.INT_RESULT false false
        false 5).2 = false)
    ∧ (resValue false (Item_func_neg_int_op false false (some 5))
        = some (-(interp false 5))
      ∨ Item_func_neg_int_op false false (some 5) = .overflow) := by
  have h := C6_neg_resolution_amended Item_result.INT_RESULT false false
    false false 5 (by decide)
  exact ⟨h.1, h.2.2.1⟩

/-- A NULL operand anywhere in the tail makes the fold NULL. -/
theorem min_max_loop_none {α : Type} [LinearOrder α] (c : Int) (v : α)
    (pre post : List (Option α)) :
    Item_func_min_max_loop c v (pre ++ none :: post) = none := by
  induction pre generalizing v with
  | nil => rfl
  | cons a t ih =>
    cases a <;> simp [Item_func_min_max_loop, ih]

/-- One update step of the LEAST fold keeps the minimum. -/
theorem min_max_step_min {α : Type} [LinearOrder α] (v a : α) :
    (if (if a < v then (1 : Int) else -1) > 0 then a else v) = min v a := by
  rcases lt_or_le a v with h | h
  · simp [h, min_eq_right h.le]
  · simp [not_lt.mpr h, min_eq_left h]

/-- One update step of the GREATEST fold keeps the maximum. -/
theorem min_max_step_max {α : Type} [LinearOrder α] (v a : α) :
    (if (if a < v then (-1 : Int) else 1) > 0 then a else v) = max v a := by
  rcases lt_or_le a v with h | h
  · simp [h, max_eq_left h.le]
  · simp [not_lt.mpr h, max_eq_right h]

/-- The LEAST fold over non-NULL operands is the left fold of `min`. -/
theorem min_max_loop_min {α : Type} [LinearOrder α] (v : α) (l : List α) :
    Item_func_min_max_loop 1 v (l.map some) = some (l.foldl min v) := by
  induction l generalizing v with
  | nil => rfl
  | cons a t ih =>
    simp only [List.map_cons, Item_func_min_max_loop, List.foldl_cons,
      min_max_step_min, ih]

/-- The GREATEST fold over non-NULL operands is the left fold of `max`. -/
theorem min_max_loop_max {α : Type} [LinearOrder α] (v : α) (l : List α) :
    Item_func_min_max_loop (-1) v (l.map some) = some (l.foldl max v) := by
  induction l generalizing v with
  | nil => rfl
  | cons a t ih =>
    simp only [List.map_cons, Item_func_min_max_loop, List.foldl_cons,
      neg_neg, min_max_step_max, ih]

/-- C9: LEAST/GREATEST evaluate the operands left-to-right keeping the
running extreme - with `cmp_sign` 1 the result over non-NULL operands is
the fold of `min`, with -1 the fold of `max` (shown in both the integer and
the real comparison domain) - and any NULL operand makes the whole result
NULL (NULL-propagating, never NULL-skipping); in particular
LEAST(1, 2, NULL) is NULL. -/
theorem C9_min_max_fold_and_null (v0 : Int) (rest : List Int) (x0 : ℚ)
    (restq : List ℚ) (pre post : List (Option Int))
    (preq postq : List (Option ℚ)) :
    Item_func_min_max_val 1 (some v0 :: rest.map some)
      = some (rest.foldl min v0)
    ∧ Item_func_min_max_val (-1) (some v0 :: rest.map some)
      = some (rest.foldl max v0)
    ∧ Item_func_min_max_val 1 (some x0 :: restq.map some)
      = some (restq.foldl min x0)
    ∧ Item_func_min_max_val (-1) (some x0 :: restq.map some)
      = some (restq.foldl max x0)
    ∧ Item_func_min_max_val 1 (some v0 :: pre ++ none :: post) = none
    ∧ Item_func_min_max_val (-1) (some v0 :: pre ++ none :: post) = none
    ∧ Item_func_min_max_val 1 (some x0 :: preq ++ none :: postq) = none
    ∧ Item_func_min_max_val 1 (none :: pre) = none
    ∧ Item_func_min_max_val 1 [some (1 : Int), some 2, none] = none := by
  refine ⟨min_max_loop_min v0 rest, min_max_loop_max v0 rest,
    min_max_loop_min x0 restq, min_max_loop_max x0 restq,
    min_max_loop_none 1 v0 pre post, min_max_loop_none (-1) v0 pre post,
    min_max_loop_none 1 x0 preq postq, rfl, by decide⟩

/-- Rounding half away from zero sends a positive half-integer up and a
negative one down. -/
theorem my_decimal_round_q_half (k : Int) :
    my_decimal_round_q ((k : ℚ) + 1/2) 0 false
      = (E_DEC_OK, (((if 0 ≤ k then k + 1 else k) : Int) : ℚ)) := by
  simp only [my_decimal_round_q, roundHalfAwayFromZero, zpow_zero, mul_one,
    div_one, Bool.false_eq_true, if_false]
  by_cases hk : 0 ≤ k
  · have hx : (0 : ℚ) ≤ (k : ℚ) + 1/2 := by
      have h2 : (0 : ℚ) ≤ (k : ℚ) := Int.cast_nonneg.mpr hk
      linarith
    rw [if_pos hx, if_pos hk]
    have he : (k : ℚ) + 1/2 + 1/2 = ((k + 1 : Int) : ℚ) := by
      push_cast; ring
    rw [he, Int.floor_intCast]
  · have hk2 : k ≤ -1 := by omega
    have hx : ¬ (0 : ℚ) ≤ (k : ℚ) + 1/2 := by
      have h2 : (k : ℚ) ≤ -1 := by exact_mod_cast hk2
      linarith
    rw [if_neg hx, if_neg hk]
    have he : (k : ℚ) + 1/2 - 1/2 = ((k : Int) : ℚ) := by push_cast; ring
    rw [he, Int.ceil_intCast]

/-- Round-half-to-even sends a half-integer to its even neighbour. -/
theorem rint_half (k : Int) :
    rint ((k : ℚ) + 1/2) = (((if 2 ∣ k then k else k + 1) : Int) : ℚ) := by
  unfold rint
  have hf : ⌊(k : ℚ) + 1/2⌋ = k := by
    rw [add_comm, Int.floor_add_int]
    norm_num
  rw [hf]
  have hx : (k : ℚ) + 1/2 - ((k : Int) : ℚ) = 1/2 := by push_cast; ring
  rw [hx]
  norm_num

/-- The double ROUND of a half-integer within the exactly-representable
range is its even neighbour. -/
theorem my_double_round_half (k : Int) (hk : |k| ≤ 4503599627370496) :
    my_double_round ((k : ℚ) + 1/2) 0 false false
      = (((if 2 ∣ k then k else k + 1) : Int) : ℚ) := by
  have h2 : |(k : ℚ)| ≤ 4503599627370496 := by
    rw [← Int.cast_abs]
    exact_mod_cast hk
  have h1 := abs_add (k : ℚ) (1/2 : ℚ)
  have h3 : |(1/2 : ℚ)| = 1/2 := by norm_num
  rw [h3] at h1
  simp only [my_double_round]
  norm_num [toSigned, U64, LONGLONG_MIN_ull]
  have habs : ¬ DBL_OVERFLOW_BOUND ≤ |(k : ℚ) + 1/2| := by
    rw [DBL_OVERFLOW_BOUND]
    push_neg
    have h4 : (4503599627370496 : ℚ) + 1/2 < 2 ^ 1024 := by norm_num
    linarith
  rw [if_neg habs, rint_half]
  split_ifs <;> push_cast <;> ring

/-- C7: ROUND diverges by domain as intended: on the decimal path a halfway
value rounds half away from zero (ROUND of decimal 2.5 at scale 0 is 3),
while the real path uses the host nearest-integer primitive under the
default round-half-to-even mode (ROUND(2.5e0) is 2); shown for every
halfway value in the exactly-representable range, so the two behaviours
differ and are never unified. -/
theorem C7_round_domain_divergence (k : Int)
    (hk : |k| ≤ 4503599627370496) :
    Item_func_round_decimal_op false false 0 (some ((k : ℚ) + 1/2)) (some 0)
      = .ok (((if 0 ≤ k then k + 1 else k) : Int) : ℚ)
    ∧ Item_func_round_real_op false false (some ((k : ℚ) + 1/2)) (some 0)
      = .ok (((if 2 ∣ k then k else k + 1) : Int) : ℚ)
    ∧ Item_func_round_decimal_op false false 0 (some (5/2)) (some 0)
      = .ok 3
    ∧ Item_func_round_real_op false false (some (5/2)) (some 0) = .ok 2
    ∧ Item_func_round_real_op false false (some (5/2)) (some 0)
      ≠ Item_func_round_decimal_op false false 0 (some (5/2)) (some 0) := by
  have hdec : ∀ y : ℚ, Item_func_round_decimal_op false false 0 (some y)
      (some 0) = .ok (my_decimal_round_q y 0 false).2 := by
    intro y
    simp [Item_func_round_decimal_op, my_decimal_round_q,
      toSigned, LONGLONG_MIN_ull, E_DEC_OK]
  have hreal : ∀ y : ℚ, Item_func_round_real_op false false (some y)
      (some 0) = .ok (my_double_round y 0 false false) := by
    intro y
    simp [Item_func_round_real_op]
  have h52 : (5/2 : ℚ) = ((2 : Int) : ℚ) + 1/2 := by norm_num
  refine ⟨?_, ?_, ?_, ?_, ?_⟩
  · rw [hdec, my_decimal_round_q_half]
  · rw [hreal, my_double_round_half k hk]
  · rw [h52, hdec, my_decimal_round_q_half]
    norm_num
  · rw [h52, hreal, my_double_round_half 2 (by norm_num)]
    norm_num
  · rw [h52, hdec, hreal, my_decimal_round_q_half,
      my_double_round_half 2 (by norm_num)]
    norm_num

/-- Witness for the ROUND divergence claim at the halfway value 2.5. -/
theorem C7_round_domain_divergence_witness :
    Item_func_round_decimal_op false false 0 (some ((2 : ℚ) + 1/2)) (some 0)
      = .ok (((3 : Int) : ℚ)) := by
  have h := (C7_round_domain_divergence 2 (by decide)).1
  simpa using h

/-- C8 (code bug): rounding is not idempotent on the integer path.  For the
unsigned value 18446744073709551615 with scale -1, `my_unsigned_round`
computes 18446744073709551610 + 10 in `ulonglong` arithmetic, which wraps
to 4, so ROUND(x, -1) = 4 while ROUND(ROUND(x, -1), -1) = 0 - the wrapped
first result breaks `ROUND(ROUND(x, n), n) = ROUND(x, n)` and contradicts
the overflow-avoidance comment on `my_unsigned_round`. -/
theorem C8_round_int_op_not_idempotent :
    Item_func_round_int_op false true false (some ULONGLONG_MAX)
      (some (intToWord (-1))) = .ok 4
    ∧ Item_func_round_int_op false true false (some 4)
      (some (intToWord (-1))) = .ok 0
    ∧ Item_func_round_int_op false true false (some 4)
        (some (intToWord (-1)))
      ≠ Item_func_round_int_op false true false (some ULONGLONG_MAX)
        (some (intToWord (-1)))
    ∧ my_unsigned_round ULONGLONG_MAX 10 = 4
    ∧ (18446744073709551610 + 10) % U64 = 4 := by
  refine ⟨by decide, by decide, by decide, by decide, by decide⟩

end ItemFunc
